import Mathlib

/-!
# Verification of the Weather widget core (`src/Weather/script.js`)

Shallow embedding of the fetch orchestrator (`fetchWeatherData`), its
in-memory cache, and the three normalizer adapters' mapping functions
(`getWeatherDescription`, `getWeatherIconFromCode`,
`getWeatherIconFromDescription`, `fetchFromWttr`).

Modelling conventions:
- JS `Map` is modelled as an association list with first-match lookup and
  in-place update on `set`.
- `Date.now()` is modelled by an explicit `now : Nat` clock parameter
  (milliseconds since the epoch); the source reads the clock at the cache
  check and again at the store, which this model folds into one value of
  the parameter, since no property here depends on the two reads differing.
- The `Promise.any` race over the three adapters is modelled by a list of
  the adapters' outcomes ordered by completion time; `Promise.any` resolves
  with the first fulfilled outcome and rejects only if all reject.
- JS `NaN` produced by `parseInt` on a non-numeric string is modelled as
  `none : Option Int` (`Math.round` maps an integer to itself and `NaN`
  to `NaN`, so rounding is the identity on this representation).
-/

namespace Weather

/-- The canonical normalized record an adapter produces (the object literal
with fields `name`, `main.temp`, `main.humidity`, `weather[0].description`,
`weather[0].icon`). `temp` and `humidity` are `Option Int` with `none`
standing for JS `NaN`. -/
structure WeatherData where
  name : String
  temp : Option Int
  humidity : Option Int
  description : String
  icon : String
deriving DecidableEq, Repr

/-- JS `String.prototype.toLowerCase()`: character-wise lowercasing. -/
def toLowerJS (s : String) : String :=
  String.mk (s.data.map Char.toLower)

/-- JS `String.prototype.trim()`: strip whitespace from both ends. -/
def trimJS (s : String) : String :=
  String.mk (((s.data.dropWhile Char.isWhitespace).reverse.dropWhile Char.isWhitespace).reverse)

/-- JS `parseInt(s)` (radix 10): skip leading whitespace, read an optional
sign, then the longest prefix of decimal digits; `NaN` (here `none`) if no
digit is found. -/
def parseIntJS (s : String) : Option Int :=
  match s.data.dropWhile Char.isWhitespace with
  | [] => none
  | c :: rest =>
    let signed : Int × List Char :=
      if c = '-' then (-1, rest) else if c = '+' then (1, rest) else (1, c :: rest)
    let ds := signed.2.takeWhile Char.isDigit
    if ds.isEmpty then none
    else some (signed.1 * Int.ofNat (ds.foldl (fun acc d => acc * 10 + (d.toNat - 48)) 0))

/-- JS `String.prototype.includes`: substring containment. -/
def includesStr (s pat : String) : Bool :=
  decide (pat.data <:+: s.data)

/-- The `descriptions` object literal inside `getWeatherDescription`. -/
def weatherDescriptions : List (Nat × String) :=
  [(0, "clear sky"), (1, "mainly clear"), (2, "partly cloudy"), (3, "overcast"),
   (45, "fog"), (48, "depositing rime fog"),
   (51, "light drizzle"), (53, "moderate drizzle"), (55, "dense drizzle"),
   (61, "slight rain"), (63, "moderate rain"), (65, "heavy rain"),
   (71, "slight snow"), (73, "moderate snow"), (75, "heavy snow"),
   (95, "thunderstorm"), (96, "thunderstorm with hail"),
   (99, "thunderstorm with heavy hail")]

/-- `getWeatherDescription(code)`: object lookup with `|| 'clear sky'`
fallback (every table value is a non-empty, hence truthy, string, so the
fallback fires exactly on a miss). -/
def getWeatherDescription (code : Nat) : String :=
  match weatherDescriptions.find? (fun p => p.1 == code) with
  | some p => p.2
  | none => "clear sky"

/-- `getWeatherIconFromCode(code)`: the if-chain over the numeric
Open-Meteo weather code. -/
def getWeatherIconFromCode (code : Nat) : String :=
  if code = 0 then "01d"
  else if code ≤ 3 then "02d"
  else if 45 ≤ code ∧ code ≤ 48 then "50d"
  else if 51 ≤ code ∧ code ≤ 55 then "09d"
  else if 61 ≤ code ∧ code ≤ 65 then "10d"
  else if 71 ≤ code ∧ code ≤ 75 then "13d"
  else if 95 ≤ code then "11d"
  else "01d"

/-- `getWeatherIconFromDescription(description)`: lower-case the input,
then first-matching-substring wins in the written order. -/
def getWeatherIconFromDescription (description : String) : String :=
  let desc := toLowerJS description
  if includesStr desc "clear" || includesStr desc "sunny" then "01d"
  else if includesStr desc "cloud" then "03d"
  else if includesStr desc "rain" || includesStr desc "drizzle" then "10d"
  else if includesStr desc "thunder" then "11d"
  else if includesStr desc "snow" then "13d"
  else if includesStr desc "mist" || includesStr desc "fog" then "50d"
  else "01d"

/-- One element of wttr.in's `current_condition` array; `weatherDesc` holds
the `value` strings of its entries. -/
structure WttrCondition where
  temp_F : String
  humidity : String
  weatherDesc : List String
deriving DecidableEq, Repr

/-- One element of wttr.in's `nearest_area` array; `areaName` and `country`
hold the `value` strings of their entries. -/
structure WttrArea where
  areaName : List String
  country : List String
deriving DecidableEq, Repr

/-- The parsed wttr.in `j1` JSON body. -/
structure WttrResponse where
  current_condition : List WttrCondition
  nearest_area : List WttrArea
deriving DecidableEq, Repr

/-- `fetchFromWttr(city)` after the transport step: `ok` is
`response.ok`, `data` the parsed JSON. Indexing `[0]` into an empty array
yields `undefined` and the subsequent property access throws a
`TypeError`, which rejects the adapter's promise: modelled by `.error`.
`Math.round(parseInt(s))` is the identity on the parsed value (integer or
`NaN`). -/
def fetchFromWttr (ok : Bool) (data : WttrResponse) : Except String WeatherData :=
  if !ok then .error "Wttr failed"
  else
    match data.current_condition.head?, data.nearest_area.head? with
    | some current, some location =>
      match location.areaName.head?, location.country.head?, current.weatherDesc.head? with
      | some area, some ctry, some descVal =>
        .ok { name := area ++ ", " ++ ctry
              temp := parseIntJS current.temp_F
              humidity := parseIntJS current.humidity
              description := toLowerJS descVal
              icon := getWeatherIconFromDescription (toLowerJS descVal) }
      | _, _, _ => .error "TypeError"
    | _, _ => .error "TypeError"

/-- `CACHE_DURATION = 10 * 60 * 1000` milliseconds. -/
def CACHE_DURATION : Nat := 10 * 60 * 1000

/-- A `WEATHER_CACHE` entry: `{ data, timestamp }`. -/
structure CacheEntry where
  data : WeatherData
  timestamp : Nat
deriving DecidableEq, Repr

/-- The `WEATHER_CACHE` JS `Map`, as an association list. -/
abbrev Cache := List (String × CacheEntry)

/-- `Map.get` (with `Map.has` folded in): the entry stored under `k`
(`Map` keys are unique, so first match is the match). -/
def mapGet? : Cache → String → Option CacheEntry
  | [], _ => none
  | p :: rest, k => if p.1 = k then some p.2 else mapGet? rest k

/-- `Map.set`: replace the entry under `k` in place if present, append at
the end (insertion order) otherwise. -/
def mapSet : Cache → String → CacheEntry → Cache
  | [], k, v => [(k, v)]
  | p :: rest, k, v => if p.1 = k then (k, v) :: rest else p :: mapSet rest k v

/-- The cache key computed at the head of `fetchWeatherData`:
`city.toLowerCase().trim()`. -/
def cacheKeyOf (city : String) : String :=
  trimJS (toLowerJS city)

/-- `Promise.any` over the adapters' outcomes listed in completion order:
resolve with the first fulfilled outcome, reject (with an
`AggregateError`) only if every outcome is a rejection. -/
def promiseAny : List (Except String WeatherData) → Except String WeatherData
  | [] => .error "AggregateError"
  | .ok d :: _ => .ok d
  | .error _ :: rest => promiseAny rest

/-- The first fulfilled outcome in completion order, if any. -/
def firstSuccess? : List (Except String WeatherData) → Option WeatherData
  | [] => none
  | .ok d :: _ => some d
  | .error _ :: rest => firstSuccess? rest

deriving instance DecidableEq for Except

/-- What one call to `fetchWeatherData` produces: the value returned (or
the rejection message), the cache afterwards, and how many adapters were
launched (0 on a fresh cache hit, all 3 otherwise). -/
structure FetchOutcome where
  result : Except String WeatherData
  cache : Cache
  adaptersInvoked : Nat
deriving DecidableEq, Repr

/-- `fetchWeatherData(city)`: check the cache under the lower-cased,
trimmed key; on a fresh entry return its data at once; otherwise race the
three adapters (`outcomes` lists their results in completion order) and
either cache-and-return the first success or throw the unified error. -/
def fetchWeatherData (now : Nat) (cache : Cache) (city : String)
    (outcomes : List (Except String WeatherData)) : FetchOutcome :=
  let cacheKey := cacheKeyOf city
  let hit : Option WeatherData :=
    match mapGet? cache cacheKey with
    | some cached => if now - cached.timestamp < CACHE_DURATION then some cached.data else none
    | none => none
  match hit with
  | some d => ⟨.ok d, cache, 0⟩
  | none =>
    match promiseAny outcomes with
    | .ok d => ⟨.ok d, mapSet cache cacheKey ⟨d, now⟩, 3⟩
    | .error _ => ⟨.error "Unable to fetch weather data from any source", cache, 3⟩

/-! ## Cache-map and race lemmas -/

theorem mapGet?_mapSet_self (c : Cache) (k : String) (v : CacheEntry) :
    mapGet? (mapSet c k v) k = some v := by
  induction c with
  | nil => simp [mapSet, mapGet?]
  | cons p rest ih =>
    by_cases hp : p.1 = k
    · simp [mapSet, mapGet?, hp]
    · simp [mapSet, mapGet?, hp, ih]

theorem mapGet?_mapSet_other (c : Cache) (k : String) (v : CacheEntry) (k' : String)
    (h : k' ≠ k) :
    mapGet? (mapSet c k v) k' = mapGet? c k' := by
  induction c with
  | nil =>
    simp only [mapSet, mapGet?]
    rw [if_neg (fun hh => h hh.symm)]
  | cons p rest ih =>
    by_cases hp : p.1 = k
    · have hk : ¬ (k = k') := fun hh => h hh.symm
      simp [mapSet, mapGet?, hp, hk, hp ▸ hk]
    · simp [mapSet, mapGet?, hp, ih]

theorem promiseAny_eq_ok (l : List (Except String WeatherData)) (d : WeatherData)
    (h : firstSuccess? l = some d) : promiseAny l = .ok d := by
  induction l with
  | nil => simp [firstSuccess?] at h
  | cons o rest ih =>
    cases o with
    | ok x =>
      simp only [firstSuccess?, Option.some_inj] at h
      simp [promiseAny, h]
    | error e =>
      simp only [firstSuccess?] at h
      simp [promiseAny, ih h]

theorem promiseAny_allFail (l : List (Except String WeatherData))
    (h : ∀ o ∈ l, o.isOk = false) : ∃ msg, promiseAny l = .error msg := by
  induction l with
  | nil => exact ⟨"AggregateError", rfl⟩
  | cons o rest ih =>
    cases o with
    | ok x =>
      have := h _ (List.mem_cons_self _ _)
      simp [Except.isOk, Except.toBool] at this
    | error e =>
      exact ih (fun o ho => h o (List.mem_cons_of_mem _ ho))

/-- A sample normalized report used to instantiate hypotheses at concrete
inputs. -/
def sampleReport : WeatherData :=
  ⟨"Paris, France", some 72, some 40, "clear sky", "01d"⟩

/-! ## Claim theorems -/

/-- C1: if the cache holds an entry under the lower-cased, trimmed key of
the query whose age is strictly below the 10-minute staleness duration,
`fetchWeatherData` returns that entry's stored report unchanged, invokes
zero adapters (hence no network calls), and leaves the cache exactly as it
was. -/
theorem fetchWeatherData_cacheHit (now : Nat) (cache : Cache) (city : String)
    (outcomes : List (Except String WeatherData)) (e : CacheEntry)
    (hget : mapGet? cache (cacheKeyOf city) = some e)
    (hfresh : now - e.timestamp < CACHE_DURATION) :
    fetchWeatherData now cache city outcomes = ⟨.ok e.data, cache, 0⟩ := by
  simp [fetchWeatherData, hget, hfresh]

theorem fetchWeatherData_cacheHit_witness :
    fetchWeatherData 600000 [("paris", ⟨sampleReport, 100000⟩)] "Paris" [] =
      ⟨.ok sampleReport, [("paris", ⟨sampleReport, 100000⟩)], 0⟩ :=
  fetchWeatherData_cacheHit 600000 [("paris", ⟨sampleReport, 100000⟩)] "Paris" []
    ⟨sampleReport, 100000⟩ (by decide) (by decide)

/-- C2: when the query is not served by a fresh cache entry and all three
adapters fail, `fetchWeatherData` rejects with the single unified error
`"Unable to fetch weather data from any source"` (no per-provider detail)
and the cache — in particular the entry for this query's key — is exactly
what it was before the call. -/
theorem fetchWeatherData_allSourcesFail (now : Nat) (cache : Cache) (city : String)
    (outcomes : List (Except String WeatherData))
    (_hlen : outcomes.length = 3)
    (hstale : ∀ e, mapGet? cache (cacheKeyOf city) = some e →
      CACHE_DURATION ≤ now - e.timestamp)
    (hfail : ∀ o ∈ outcomes, o.isOk = false) :
    fetchWeatherData now cache city outcomes =
      ⟨.error "Unable to fetch weather data from any source", cache, 3⟩ := by
  obtain ⟨msg, hmsg⟩ := promiseAny_allFail outcomes hfail
  cases hget : mapGet? cache (cacheKeyOf city) with
  | none => simp [fetchWeatherData, hget, hmsg]
  | some e => simp [fetchWeatherData, hget, hmsg, Nat.not_lt.mpr (hstale e hget)]

theorem fetchWeatherData_allSourcesFail_witness :
    fetchWeatherData 600000 [] "Paris"
        [.error "WeatherAPI failed", .error "City not found", .error "Wttr failed"] =
      ⟨.error "Unable to fetch weather data from any source", [], 3⟩ :=
  fetchWeatherData_allSourcesFail 600000 [] "Paris"
    [.error "WeatherAPI failed", .error "City not found", .error "Wttr failed"]
    (by decide)
    (fun e he => by simp [mapGet?] at he)
    (by decide)

/-- C3: when the query is not served by a fresh cache entry and at least
one adapter succeeds, `fetchWeatherData` returns the first succeeding
adapter's normalized report (in completion order, covering in particular
the one-success-two-failures combinations) and stores exactly that report
under the normalized key together with the current timestamp. -/
theorem fetchWeatherData_firstSuccess (now : Nat) (cache : Cache) (city : String)
    (outcomes : List (Except String WeatherData)) (d : WeatherData)
    (_hlen : outcomes.length = 3)
    (hstale : ∀ e, mapGet? cache (cacheKeyOf city) = some e →
      CACHE_DURATION ≤ now - e.timestamp)
    (hwin : firstSuccess? outcomes = some d) :
    (fetchWeatherData now cache city outcomes).result = .ok d ∧
      (fetchWeatherData now cache city outcomes).cache =
        mapSet cache (cacheKeyOf city) ⟨d, now⟩ ∧
      mapGet? (fetchWeatherData now cache city outcomes).cache (cacheKeyOf city) =
        some ⟨d, now⟩ := by
  have hok := promiseAny_eq_ok outcomes d hwin
  cases hget : mapGet? cache (cacheKeyOf city) with
  | none => simp [fetchWeatherData, hget, hok, mapGet?_mapSet_self]
  | some e =>
    simp [fetchWeatherData, hget, hok, Nat.not_lt.mpr (hstale e hget),
      mapGet?_mapSet_self]

theorem fetchWeatherData_firstSuccess_witness :
    (fetchWeatherData 0 [] "Paris"
        [.error "WeatherAPI failed", .ok sampleReport, .error "Wttr failed"]).result =
      .ok sampleReport ∧
    (fetchWeatherData 0 [] "Paris"
        [.error "WeatherAPI failed", .ok sampleReport, .error "Wttr failed"]).cache =
      mapSet [] (cacheKeyOf "Paris") ⟨sampleReport, 0⟩ ∧
    mapGet? (fetchWeatherData 0 [] "Paris"
        [.error "WeatherAPI failed", .ok sampleReport, .error "Wttr failed"]).cache
        (cacheKeyOf "Paris") = some ⟨sampleReport, 0⟩ :=
  fetchWeatherData_firstSuccess 0 [] "Paris"
    [.error "WeatherAPI failed", .ok sampleReport, .error "Wttr failed"] sampleReport
    (by decide) (fun e he => by simp [mapGet?] at he) (by decide)

/-- C10: a call to `fetchWeatherData` modifies at most the cache entry for
the lower-cased, trimmed key of its own query: under every other key, the
cache reads the same before and after, whatever the outcome (fresh hit,
winning adapter, or all-fail rejection). -/
theorem fetchWeatherData_frame (now : Nat) (cache : Cache) (city : String)
    (outcomes : List (Except String WeatherData)) (k : String)
    (hne : k ≠ cacheKeyOf city) :
    mapGet? (fetchWeatherData now cache city outcomes).cache k = mapGet? cache k := by
  cases hget : mapGet? cache (cacheKeyOf city) with
  | none =>
    cases hrace : promiseAny outcomes with
    | ok d => simp [fetchWeatherData, hget, hrace, mapGet?_mapSet_other _ _ _ _ hne]
    | error msg => simp [fetchWeatherData, hget, hrace]
  | some e =>
    by_cases hfresh : now - e.timestamp < CACHE_DURATION
    · simp [fetchWeatherData, hget, hfresh]
    · cases hrace : promiseAny outcomes with
      | ok d => simp [fetchWeatherData, hget, hfresh, hrace,
          mapGet?_mapSet_other _ _ _ _ hne]
      | error msg => simp [fetchWeatherData, hget, hfresh, hrace]

theorem fetchWeatherData_frame_witness :
    mapGet? (fetchWeatherData 0 [("london", ⟨sampleReport, 0⟩)] "Paris"
        [.ok sampleReport, .error "City not found", .error "Wttr failed"]).cache "london" =
      mapGet? [("london", ⟨sampleReport, 0⟩)] "london" :=
  fetchWeatherData_frame 0 [("london", ⟨sampleReport, 0⟩)] "Paris"
    [.ok sampleReport, .error "City not found", .error "Wttr failed"] "london" (by decide)

/-- C8: any two query strings that agree after lower-casing and trimming
map to the same cache key, hence read the same cache entry and write the
same slot; in particular `"Paris"`, `" paris "` and `"PARIS"` all share
the key `"paris"`. -/
theorem cacheKey_normalization (q1 q2 : String) (c : Cache) (v : CacheEntry)
    (h : trimJS (toLowerJS q1) = trimJS (toLowerJS q2)) :
    (cacheKeyOf q1 = cacheKeyOf q2 ∧
      mapGet? c (cacheKeyOf q1) = mapGet? c (cacheKeyOf q2) ∧
      mapSet c (cacheKeyOf q1) v = mapSet c (cacheKeyOf q2) v) ∧
    (cacheKeyOf "Paris" = "paris" ∧ cacheKeyOf " paris " = "paris" ∧
      cacheKeyOf "PARIS" = "paris") := by
  have hk : cacheKeyOf q1 = cacheKeyOf q2 := h
  exact ⟨⟨hk, by rw [hk], by rw [hk]⟩, by decide, by decide, by decide⟩

theorem cacheKey_normalization_witness :
    (cacheKeyOf "Paris" = cacheKeyOf " paris " ∧
      mapGet? [] (cacheKeyOf "Paris") = mapGet? [] (cacheKeyOf " paris ") ∧
      mapSet [] (cacheKeyOf "Paris") ⟨sampleReport, 0⟩ =
        mapSet [] (cacheKeyOf " paris ") ⟨sampleReport, 0⟩) ∧
    (cacheKeyOf "Paris" = "paris" ∧ cacheKeyOf " paris " = "paris" ∧
      cacheKeyOf "PARIS" = "paris") :=
  cacheKey_normalization "Paris" " paris " [] ⟨sampleReport, 0⟩ (by decide)

/-- C4: adapter B's code-to-description function returns exactly the table
value on each of the 18 listed codes and `"clear sky"` on every code not
in the table. -/
theorem getWeatherDescription_table (code : Nat) :
    (getWeatherDescription 0 = "clear sky" ∧ getWeatherDescription 1 = "mainly clear" ∧
      getWeatherDescription 2 = "partly cloudy" ∧ getWeatherDescription 3 = "overcast" ∧
      getWeatherDescription 45 = "fog" ∧ getWeatherDescription 48 = "depositing rime fog" ∧
      getWeatherDescription 51 = "light drizzle" ∧
      getWeatherDescription 53 = "moderate drizzle" ∧
      getWeatherDescription 55 = "dense drizzle" ∧ getWeatherDescription 61 = "slight rain" ∧
      getWeatherDescription 63 = "moderate rain" ∧ getWeatherDescription 65 = "heavy rain" ∧
      getWeatherDescription 71 = "slight snow" ∧ getWeatherDescription 73 = "moderate snow" ∧
      getWeatherDescription 75 = "heavy snow" ∧ getWeatherDescription 95 = "thunderstorm" ∧
      getWeatherDescription 96 = "thunderstorm with hail" ∧
      getWeatherDescription 99 = "thunderstorm with heavy hail") ∧
    (code ∉ ([0, 1, 2, 3, 45, 48, 51, 53, 55, 61, 63, 65, 71, 73, 75, 95, 96, 99] : List Nat) →
      getWeatherDescription code = "clear sky") := by
  constructor
  · decide
  · intro h
    simp only [List.mem_cons, List.not_mem_nil, or_false, not_or] at h
    have hfind : weatherDescriptions.find? (fun p => p.1 == code) = none := by
      rw [List.find?_eq_none]
      intro x hx
      unfold weatherDescriptions at hx
      fin_cases hx <;> simp <;> omega
    unfold getWeatherDescription
    rw [hfind]

theorem getWeatherDescription_table_witness :
    (100 : Nat) ∉ ([0, 1, 2, 3, 45, 48, 51, 53, 55, 61, 63, 65, 71, 73, 75, 95, 96, 99] : List Nat) ∧
      getWeatherDescription 100 = "clear sky" :=
  ⟨by decide, (getWeatherDescription_table 100).2 (by decide)⟩

/-- C5 counterexample: the unlisted weather code 999 does not map to the
clear-day icon bucket `"01d"`; the `code >= 95` branch fires first, giving
the thunderstorm bucket `"11d"`. -/
theorem getWeatherIconFromCode_999_thunder :
    getWeatherIconFromCode 999 ≠ "01d" ∧ getWeatherIconFromCode 999 = "11d" := by
  decide

/-- C5 (amended): weather code 61 maps to description `"slight rain"` and
the rain bucket `"10d"`; code 3 to `"overcast"` and the partly-cloudy-day
bucket `"02d"`; the unlisted code 999 to the default description
`"clear sky"` and — since `999 ≥ 95` — the thunderstorm bucket `"11d"`,
not the clear-day bucket. -/
theorem adapterB_testCodes :
    getWeatherDescription 61 = "slight rain" ∧ getWeatherIconFromCode 61 = "10d" ∧
    getWeatherDescription 3 = "overcast" ∧ getWeatherIconFromCode 3 = "02d" ∧
    getWeatherDescription 999 = "clear sky" ∧ getWeatherIconFromCode 999 = "11d" := by
  decide

/-- C6: adapter B's code-to-icon function applies the bucket rule in the
fixed order with first match winning: 0 gives clear-day, [1,3]
partly-cloudy-day, [45,48] mist, [51,55] shower, [61,65] rain, [71,75]
snow, ≥95 thunderstorm, and everything else clear-day. -/
theorem getWeatherIconFromCode_buckets (code : Nat) :
    (code = 0 → getWeatherIconFromCode code = "01d") ∧
    (1 ≤ code ∧ code ≤ 3 → getWeatherIconFromCode code = "02d") ∧
    (45 ≤ code ∧ code ≤ 48 → getWeatherIconFromCode code = "50d") ∧
    (51 ≤ code ∧ code ≤ 55 → getWeatherIconFromCode code = "09d") ∧
    (61 ≤ code ∧ code ≤ 65 → getWeatherIconFromCode code = "10d") ∧
    (71 ≤ code ∧ code ≤ 75 → getWeatherIconFromCode code = "13d") ∧
    (95 ≤ code → getWeatherIconFromCode code = "11d") ∧
    (code ≠ 0 → ¬(1 ≤ code ∧ code ≤ 3) → ¬(45 ≤ code ∧ code ≤ 48) →
      ¬(51 ≤ code ∧ code ≤ 55) → ¬(61 ≤ code ∧ code ≤ 65) →
      ¬(71 ≤ code ∧ code ≤ 75) → ¬(95 ≤ code) →
      getWeatherIconFromCode code = "01d") := by
  unfold getWeatherIconFromCode
  refine ⟨?_, ?_, ?_, ?_, ?_, ?_, ?_, ?_⟩ <;> intros <;> split_ifs <;>
    first | rfl | omega

theorem getWeatherIconFromCode_buckets_witness :
    getWeatherIconFromCode 46 = "50d" ∧ getWeatherIconFromCode 80 = "01d" :=
  ⟨(getWeatherIconFromCode_buckets 46).2.2.1 (by decide),
   (getWeatherIconFromCode_buckets 80).2.2.2.2.2.2.2 (by decide) (by decide) (by decide)
     (by decide) (by decide) (by decide) (by decide)⟩

/-- C7: the keyword-to-icon function of adapters A and C is
case-insensitive (it depends only on the lower-cased input) and checks
substrings in the fixed order clear/sunny, cloud, rain/drizzle, thunder,
snow, mist/fog with the first match winning and clear-day as the default;
in particular `"light thunderstorms with hail"` gives the thunderstorm-day
icon, and a description containing both `"cloud"` and `"rain"` (and no
earlier keyword) gives the cloud icon. -/
theorem getWeatherIconFromDescription_keywordRule (d d1 d2 : String) :
    (toLowerJS d1 = toLowerJS d2 →
      getWeatherIconFromDescription d1 = getWeatherIconFromDescription d2) ∧
    ((includesStr (toLowerJS d) "clear" || includesStr (toLowerJS d) "sunny") = true →
      getWeatherIconFromDescription d = "01d") ∧
    (includesStr (toLowerJS d) "clear" = false → includesStr (toLowerJS d) "sunny" = false →
      includesStr (toLowerJS d) "cloud" = true →
      getWeatherIconFromDescription d = "03d") ∧
    (includesStr (toLowerJS d) "clear" = false → includesStr (toLowerJS d) "sunny" = false →
      includesStr (toLowerJS d) "cloud" = false →
      (includesStr (toLowerJS d) "rain" || includesStr (toLowerJS d) "drizzle") = true →
      getWeatherIconFromDescription d = "10d") ∧
    (includesStr (toLowerJS d) "clear" = false → includesStr (toLowerJS d) "sunny" = false →
      includesStr (toLowerJS d) "cloud" = false → includesStr (toLowerJS d) "rain" = false →
      includesStr (toLowerJS d) "drizzle" = false →
      includesStr (toLowerJS d) "thunder" = true →
      getWeatherIconFromDescription d = "11d") ∧
    (includesStr (toLowerJS d) "clear" = false → includesStr (toLowerJS d) "sunny" = false →
      includesStr (toLowerJS d) "cloud" = false → includesStr (toLowerJS d) "rain" = false →
      includesStr (toLowerJS d) "drizzle" = false →
      includesStr (toLowerJS d) "thunder" = false →
      includesStr (toLowerJS d) "snow" = true →
      getWeatherIconFromDescription d = "13d") ∧
    (includesStr (toLowerJS d) "clear" = false → includesStr (toLowerJS d) "sunny" = false →
      includesStr (toLowerJS d) "cloud" = false → includesStr (toLowerJS d) "rain" = false →
      includesStr (toLowerJS d) "drizzle" = false →
      includesStr (toLowerJS d) "thunder" = false →
      includesStr (toLowerJS d) "snow" = false →
      (includesStr (toLowerJS d) "mist" || includesStr (toLowerJS d) "fog") = true →
      getWeatherIconFromDescription d = "50d") ∧
    (includesStr (toLowerJS d) "clear" = false → includesStr (toLowerJS d) "sunny" = false →
      includesStr (toLowerJS d) "cloud" = false → includesStr (toLowerJS d) "rain" = false →
      includesStr (toLowerJS d) "drizzle" = false →
      includesStr (toLowerJS d) "thunder" = false →
      includesStr (toLowerJS d) "snow" = false → includesStr (toLowerJS d) "mist" = false →
      includesStr (toLowerJS d) "fog" = false →
      getWeatherIconFromDescription d = "01d") ∧
    getWeatherIconFromDescription "light thunderstorms with hail" = "11d" ∧
    (includesStr (toLowerJS d) "clear" = false → includesStr (toLowerJS d) "sunny" = false →
      includesStr (toLowerJS d) "cloud" = true → includesStr (toLowerJS d) "rain" = true →
      getWeatherIconFromDescription d = "03d") := by
  refine ⟨fun h => ?_, ?_, ?_, ?_, ?_, ?_, ?_, ?_, by decide, ?_⟩ <;>
    intros <;> simp_all [getWeatherIconFromDescription]

theorem getWeatherIconFromDescription_keywordRule_witness :
    getWeatherIconFromDescription "light thunderstorms with hail" = "11d" ∧
    getWeatherIconFromDescription "Cloudy with Rain" = "03d" :=
  ⟨(getWeatherIconFromDescription_keywordRule "x" "x" "x").2.2.2.2.2.2.2.2.1,
   (getWeatherIconFromDescription_keywordRule "Cloudy with Rain" "x" "x").2.2.2.2.2.2.2.2.2
     (by decide) (by decide) (by decide) (by decide)⟩

/-- C9 counterexample: adapter C does not reject when `temp_F` is not
parseable as an integer: on a response whose `temp_F` is `"abc"` it
resolves with a report whose temperature is `NaN` (modelled `none`). -/
theorem fetchFromWttr_unparseable_resolves :
    parseIntJS "abc" = none ∧
    fetchFromWttr true ⟨[⟨"abc", "65", ["Sunny"]⟩], [⟨["Testville"], ["Nowhere"]⟩]⟩ =
      .ok ⟨"Testville, Nowhere", none, some 65, "sunny", "01d"⟩ := by
  decide

/-- C9 (amended): adapter C rejects on transport failure and on
structurally missing response parts (missing `current_condition` or
`nearest_area` entries, or their inner value arrays), but a `temp_F` or a
`humidity` string that is not parseable as an integer does not make it
fail: it resolves with a report carrying `NaN` (modelled `none`) in that
field. -/
theorem fetchFromWttr_nan_report (data : WttrResponse) (c : WttrCondition) (a : WttrArea)
    (nm ct dv : String) :
    (fetchFromWttr false data = .error "Wttr failed") ∧
    (data.current_condition.head? = none → fetchFromWttr true data = .error "TypeError") ∧
    (data.nearest_area.head? = none → fetchFromWttr true data = .error "TypeError") ∧
    (data.current_condition.head? = some c → data.nearest_area.head? = some a →
      (a.areaName.head? = none ∨ a.country.head? = none ∨ c.weatherDesc.head? = none) →
      fetchFromWttr true data = .error "TypeError") ∧
    (data.current_condition.head? = some c → data.nearest_area.head? = some a →
      a.areaName.head? = some nm → a.country.head? = some ct →
      c.weatherDesc.head? = some dv →
      (parseIntJS c.temp_F = none ∨ parseIntJS c.humidity = none) →
      ∃ r, fetchFromWttr true data = .ok r ∧
        r.temp = parseIntJS c.temp_F ∧ r.humidity = parseIntJS c.humidity ∧
        (r.temp = none ∨ r.humidity = none)) := by
  refine ⟨by simp [fetchFromWttr], fun hc => ?_, fun ha => ?_,
    fun hc ha hnone => ?_, fun hc ha hnm hct hdv hnan => ?_⟩
  · simp [fetchFromWttr, hc]
  · cases hc : data.current_condition.head? <;> simp [fetchFromWttr, hc, ha]
  · rcases hnone with h | h | h
    · simp [fetchFromWttr, hc, ha, h]
    · cases hx : a.areaName.head? <;> simp [fetchFromWttr, hc, ha, hx, h]
    · cases hx : a.areaName.head? <;> cases hy : a.country.head? <;>
        simp [fetchFromWttr, hc, ha, hx, hy, h]
  · exact ⟨{ name := nm ++ ", " ++ ct, temp := parseIntJS c.temp_F,
             humidity := parseIntJS c.humidity, description := toLowerJS dv,
             icon := getWeatherIconFromDescription (toLowerJS dv) },
           by simp [fetchFromWttr, hc, ha, hnm, hct, hdv], rfl, rfl, hnan⟩

theorem fetchFromWttr_nan_report_witness :
    (fetchFromWttr false ⟨[⟨"72", "n/a", ["Sunny"]⟩], [⟨["Testville"], ["Nowhere"]⟩]⟩ =
      .error "Wttr failed") ∧
    (∃ r, fetchFromWttr true ⟨[⟨"72", "n/a", ["Sunny"]⟩], [⟨["Testville"], ["Nowhere"]⟩]⟩ =
        .ok r ∧
      r.temp = parseIntJS "72" ∧ r.humidity = parseIntJS "n/a" ∧
      (r.temp = none ∨ r.humidity = none)) :=
  ⟨(fetchFromWttr_nan_report ⟨[⟨"72", "n/a", ["Sunny"]⟩], [⟨["Testville"], ["Nowhere"]⟩]⟩
      ⟨"72", "n/a", ["Sunny"]⟩ ⟨["Testville"], ["Nowhere"]⟩ "Testville" "Nowhere" "Sunny").1,
   (fetchFromWttr_nan_report ⟨[⟨"72", "n/a", ["Sunny"]⟩], [⟨["Testville"], ["Nowhere"]⟩]⟩
      ⟨"72", "n/a", ["Sunny"]⟩ ⟨["Testville"], ["Nowhere"]⟩ "Testville" "Nowhere"
      "Sunny").2.2.2.2 (by decide) (by decide) (by decide) (by decide) (by decide)
     (Or.inr (by decide))⟩

end Weather
